import Mathlib

/-!
Verification of the `django_snow` Change Order Lifecycle Client
(`django_snow/helpers/snow_change_order_handler.py`).

The Python code is shallowly embedded:

* Python dicts used as request payloads and as the group-GUID cache are
  modelled as association lists with key-replacing insertion (`setKey`)
  and first-match lookup (`lookupKey`); this matches dict semantics for
  membership, lookup and assignment, which is all the code uses.
* The remote ServiceNow API (an external collaborator) is an oracle
  parameter: `remote : Payload → RemoteResponse` for the change-request
  table endpoint, and `groupRemote : Option String → List String` giving
  the list of `sys_id`s matching a group-name query on the user-group
  table endpoint.
* Python's in-place mutation of the passed-in `ChangeOrder` and the calls
  to the Django ORM (`ChangeOrder.objects.create`, `change_order.save`)
  are made explicit: each operation returns the resulting in-memory
  record and a log of repository writes (`RepoOp`).
* Exceptions become `Except`: `HTTPError` responses and legacy `error`
  bodies become `ChangeOrderException` values carrying the same message
  the handler formats; `pysnow`'s `response.one()` failures on zero or
  multiple matches become `GroupLookupError`.
* `timezone.now()` is an explicit `now : Nat` parameter.
-/

namespace DjangoSnow

/-- Association-list lookup of the first binding of key `k`,
modelling Python's `d[k]` / `k in d`. -/
def lookupKey {κ : Type} [DecidableEq κ] : List (κ × String) → κ → Option String
  | [], _ => none
  | (k', v) :: rest, k => if k' = k then some v else lookupKey rest k

/-- Association-list key assignment modelling Python's `d[k] = v`:
replaces the existing binding in place, else appends. -/
def setKey {κ : Type} [DecidableEq κ] : List (κ × String) → κ → String → List (κ × String)
  | [], k, v => [(k, v)]
  | (k', v') :: rest, k, v =>
      if k' = k then (k, v) :: rest else (k', v') :: setKey rest k v

/-- A request payload: a Python dict with string keys and values. -/
abbrev Payload := List (String × String)

/-- The group-GUID cache `ChangeOrderHandler.group_guid_dict`: keyed by the
group name actually passed, which in Python may be `None` (hence `Option`). -/
abbrev GroupCache := List (Option String × String)

/-- Configuration read from Django settings in `ChangeOrderHandler.__init__`:
`SNOW_ASSIGNMENT_GROUP` (optional, default `None`) and
`SNOW_DEFAULT_CHANGE_TYPE` (default `'standard'`). -/
structure Config where
  snow_assignment_group : Option String
  snow_default_cr_type : String
deriving DecidableEq, Repr

/-- A parsed remote response body from the change-request table endpoint:
the fields the handler reads, plus the legacy `error` field
(`none` when the key is absent). `assignment_group_value` models
`result['assignment_group']['value']`. -/
structure SnowResult where
  error : Option String
  sys_id : String
  number : String
  short_description : String
  description : String
  assignment_group_value : String
  state : String
deriving DecidableEq, Repr

/-- Outcome of one remote change-request call: the transport raised
`HTTPError` (carrying `e.response.text`), or a 2xx body. -/
inductive RemoteResponse where
  | httpError (text : String)
  | ok (r : SnowResult)
deriving DecidableEq, Repr

/-- The local `ChangeOrder` Django model record as the handler uses it.
Fields mirror `django_snow/models.py` usage in the handler:
`sys_id`, `number`, `title`, `description`, `assignment_group_guid`,
`state`, `closed_time` (nullable). -/
structure ChangeOrder where
  sys_id : String
  number : String
  title : String
  description : String
  assignment_group_guid : String
  state : String
  closed_time : Option Nat
deriving DecidableEq, Repr

/-- Modelled from the spec: the `ChangeOrder` model class
(`django_snow/models.py`, not present under `src/`) defines the ticket
state constants; states are opaque strings defined by the remote system
(§4.2), and the client itself drives only the completed value. -/
def TICKET_STATE_COMPLETE : String := "3"

/-- Modelled from the spec: the completed-with-errors ticket state constant
of the `ChangeOrder` model class (`django_snow/models.py`, not present
under `src/`); an opaque string distinct from `TICKET_STATE_COMPLETE`. -/
def TICKET_STATE_COMPLETE_WITH_ERRORS : String := "4"

/-- The `ChangeOrderException` raised by the handler, carrying the
formatted message. -/
structure ChangeOrderException where
  message : String
deriving DecidableEq, Repr

/-- Failure of `pysnow`'s `response.one()` in `get_snow_group_guid`:
zero or multiple rows matched the group-name query. The spec calls this
`LookupError`. -/
inductive GroupLookupError where
  | noResults
  | multipleResults
deriving DecidableEq, Repr

/-- A write performed through the Change Order Repository (the Django ORM):
`ChangeOrder.objects.create(...)` or `change_order.save()`. -/
inductive RepoOp where
  | createRecord (co : ChangeOrder)
  | saveRecord (co : ChangeOrder)
deriving DecidableEq, Repr

/-- Result of `ChangeOrderHandler.get_snow_group_guid`: the returned GUID or
the lookup error, the cache afterwards, and how many remote queries were
issued (0 or 1). -/
structure GroupLookupOutcome where
  result : Except GroupLookupError String
  cache : GroupCache
  remoteCalls : Nat
deriving Repr

/-- `ChangeOrderHandler.get_snow_group_guid(group_name)`: on a cache miss,
query the user-group table by name, require exactly one row
(`response.one()`), store its `sys_id` under the name, return it; on a
hit return the cached GUID with no remote call. -/
def get_snow_group_guid (groupRemote : Option String → List String)
    (cache : GroupCache) (group_name : Option String) : GroupLookupOutcome :=
  match lookupKey cache group_name with
  | some g => ⟨Except.ok g, cache, 0⟩
  | none =>
      match groupRemote group_name with
      | [g] => ⟨Except.ok g, setKey cache group_name g, 1⟩
      | [] => ⟨Except.error GroupLookupError.noResults, cache, 1⟩
      | _ => ⟨Except.error GroupLookupError.multipleResults, cache, 1⟩

/-- `ChangeOrderHandler.clear_group_guid_cache()`: `group_guid_dict.clear()`. -/
def clear_group_guid_cache (_cache : GroupCache) : GroupCache := []

/-- Python's `a or b` on an optional string `a`: `None` and the empty string
are falsy, so either falls through to `b`. Models
`assignment_group or self.snow_assignment_group` (line 47). -/
def pyOr (a b : Option String) : Option String :=
  match a with
  | some s => if s = "" then b else some s
  | none => b

/-- Errors `create_change_order` can propagate: a `pysnow` lookup error
escaping `get_snow_group_guid`, or the `ChangeOrderException` the handler
raises itself. -/
inductive CreateError where
  | groupLookup (e : GroupLookupError)
  | changeOrder (e : ChangeOrderException)
deriving DecidableEq, Repr

/-- Lines 40-43 of `create_change_order`: `payload = payload or {}`, then
force `short_description` and `description` to the explicit parameters. -/
def titled_payload (title description : String) (payload0 : Option Payload) :
    Payload :=
  setKey (setKey (payload0.getD []) "short_description" title)
    "description" description

/-- Lines 40-45 of `create_change_order`: additionally inject the default
change type when `type` is absent. -/
def base_create_payload (cfg : Config) (title description : String)
    (payload0 : Option Payload) : Payload :=
  if (lookupKey (titled_payload title description payload0) "type").isSome then
    titled_payload title description payload0
  else
    setKey (titled_payload title description payload0) "type"
      cfg.snow_default_cr_type

/-- Lines 40-47 of `create_change_order`: the payload-building phase,
including resolving the assignment group through `get_snow_group_guid`
when `assignment_group` is absent from the payload. Returns the payload
to send (or the escaping lookup error), the cache afterwards, and the
number of remote group queries issued. -/
def build_create_payload (cfg : Config)
    (groupRemote : Option String → List String) (cache : GroupCache)
    (title description : String) (assignment_group : Option String)
    (payload0 : Option Payload) :
    Except GroupLookupError Payload × GroupCache × Nat :=
  if (lookupKey (base_create_payload cfg title description payload0)
      "assignment_group").isSome then
    (Except.ok (base_create_payload cfg title description payload0), cache, 0)
  else
    match get_snow_group_guid groupRemote cache
        (pyOr assignment_group cfg.snow_assignment_group) with
    | ⟨Except.ok g, cache', n⟩ =>
        (Except.ok (setKey (base_create_payload cfg title description payload0)
            "assignment_group" g), cache', n)
    | ⟨Except.error e, cache', n⟩ => (Except.error e, cache', n)

/-- Outcome of `create_change_order`: the created record or the error, the
repository writes performed, the cache and group-query count, and the
payload actually sent to the remote create endpoint (`none` when the
operation failed before sending). -/
structure CreateOutcome where
  result : Except CreateError ChangeOrder
  repoOps : List RepoOp
  cache : GroupCache
  groupRemoteCalls : Nat
  sentPayload : Option Payload
deriving Repr

/-- Lines 49-69 of `create_change_order`: send the built payload to the
create endpoint; on `HTTPError` or a legacy `error` body raise
`ChangeOrderException` with the remote text; otherwise persist a new
`ChangeOrder` populated from the response and return it. -/
def send_create (remote : Payload → RemoteResponse) (pl : Payload)
    (cache' : GroupCache) (n : Nat) : CreateOutcome :=
  match remote pl with
  | RemoteResponse.httpError t =>
      ⟨Except.error (CreateError.changeOrder
          ⟨"Could not create change order due to " ++ t ++ "."⟩),
        [], cache', n, some pl⟩
  | RemoteResponse.ok r =>
      match r.error with
      | some e =>
          ⟨Except.error (CreateError.changeOrder
              ⟨"Could not create change order due to " ++ e⟩),
            [], cache', n, some pl⟩
      | none =>
          let co : ChangeOrder :=
            ⟨r.sys_id, r.number, r.short_description, r.description,
              r.assignment_group_value, r.state, none⟩
          ⟨Except.ok co, [RepoOp.createRecord co], cache', n, some pl⟩

/-- `ChangeOrderHandler.create_change_order(title, description,
assignment_group=None, payload=None)`: build the payload (lines 40-47,
including group resolution, whose `pysnow` errors propagate), then send
it (lines 49-69). -/
def create_change_order (cfg : Config)
    (groupRemote : Option String → List String)
    (remote : Payload → RemoteResponse) (cache : GroupCache)
    (title description : String) (assignment_group : Option String)
    (payload0 : Option Payload) : CreateOutcome :=
  match build_create_payload cfg groupRemote cache title description
      assignment_group payload0 with
  | (Except.error e, cache', n) =>
      ⟨Except.error (CreateError.groupLookup e), [], cache', n, none⟩
  | (Except.ok pl, cache', n) => send_create remote pl cache' n

/-- Outcome of `update_change_order` (and of the two close wrappers, which
delegate to it): the raw remote result or the raised exception, the
in-memory record after the call (Python mutates `change_order` in place),
the repository writes, and the payload sent. -/
structure UpdateOutcome where
  result : Except ChangeOrderException SnowResult
  record : ChangeOrder
  repoOps : List RepoOp
  sentPayload : Payload
deriving Repr

/-- `ChangeOrderHandler.update_change_order(change_order, payload)`: send
the update keyed by `sys_id`; on `HTTPError` or a legacy `error` body
raise `ChangeOrderException` with the remote text and touch nothing;
otherwise overwrite `state`, `title`, `description`,
`assignment_group_guid` from the response, `save()`, and return the raw
result. -/
def update_change_order (remote : Payload → RemoteResponse)
    (change_order : ChangeOrder) (payload : Payload) : UpdateOutcome :=
  match remote payload with
  | RemoteResponse.httpError t =>
      ⟨Except.error ⟨"Could not update change order due to " ++ t⟩,
        change_order, [], payload⟩
  | RemoteResponse.ok r =>
      match r.error with
      | some e =>
          ⟨Except.error ⟨"Could not update change order due to " ++ e⟩,
            change_order, [], payload⟩
      | none =>
          let co := { change_order with
            state := r.state
            title := r.short_description
            description := r.description
            assignment_group_guid := r.assignment_group_value }
          ⟨Except.ok r, co, [RepoOp.saveRecord co], payload⟩

/-- `ChangeOrderHandler.close_change_order(change_order)`: build
`{'state': TICKET_STATE_COMPLETE}`, stamp `closed_time = timezone.now()`
on the in-memory record, then delegate to `update_change_order`. -/
def close_change_order (remote : Payload → RemoteResponse) (now : Nat)
    (change_order : ChangeOrder) : UpdateOutcome :=
  update_change_order remote { change_order with closed_time := some now }
    [("state", TICKET_STATE_COMPLETE)]

/-- `ChangeOrderHandler.close_change_order_with_error(change_order,
payload)`: force `payload['state'] = TICKET_STATE_COMPLETE_WITH_ERRORS`,
stamp `closed_time = timezone.now()`, then delegate to
`update_change_order`. -/
def close_change_order_with_error (remote : Payload → RemoteResponse)
    (now : Nat) (change_order : ChangeOrder) (payload : Payload) :
    UpdateOutcome :=
  update_change_order remote { change_order with closed_time := some now }
    (setKey payload "state" TICKET_STATE_COMPLETE_WITH_ERRORS)

theorem lookupKey_setKey_self {κ : Type} [DecidableEq κ]
    (m : List (κ × String)) (k : κ) (v : String) :
    lookupKey (setKey m k v) k = some v := by
  induction m with
  | nil => simp [setKey, lookupKey]
  | cons hd tl ih =>
      obtain ⟨k', v'⟩ := hd
      by_cases h : k' = k
      · simp [setKey, lookupKey, h]
      · simp [setKey, lookupKey, h, ih]

theorem lookupKey_setKey_ne {κ : Type} [DecidableEq κ]
    (m : List (κ × String)) (k k' : κ) (v : String) (h : k' ≠ k) :
    lookupKey (setKey m k v) k' = lookupKey m k' := by
  induction m with
  | nil =>
      simp only [setKey, lookupKey]
      rw [if_neg (Ne.symm h)]
  | cons hd tl ih =>
      obtain ⟨k₀, v₀⟩ := hd
      by_cases h0 : k₀ = k
      · subst h0
        simp only [setKey, if_pos rfl, lookupKey]
        rw [if_neg (Ne.symm h), if_neg (Ne.symm h)]
      · simp only [setKey, if_neg h0, lookupKey]
        rw [ih]

/-- When the payload-building phase succeeds, `create_change_order` is the
send phase applied to the built payload. -/
theorem create_change_order_eq_send (cfg : Config)
    (groupRemote : Option String → List String)
    (remote : Payload → RemoteResponse) (cache : GroupCache)
    (title description : String) (ag : Option String) (p0 : Option Payload)
    (pl : Payload) (c2 : GroupCache) (n : Nat)
    (hb : build_create_payload cfg groupRemote cache title description ag p0
        = (Except.ok pl, c2, n)) :
    create_change_order cfg groupRemote remote cache title description ag p0
      = send_create remote pl c2 n := by
  unfold create_change_order
  rw [hb]

/-- C2: for a group name absent from the cache whose remote query returns
exactly one match, `get_snow_group_guid` issues exactly one remote lookup
and stores the GUID under that name; any later resolution of a name whose
cached GUID is present issues zero remote calls, returns that GUID and
leaves the cache unchanged; resolving any other name never evicts the
entry; and after `clear_group_guid_cache` the next resolution of the name
issues a remote lookup again. -/
theorem c2_group_guid_cache_behaviour
    (groupRemote : Option String → List String) (cache0 : GroupCache)
    (name : Option String) (g : String)
    (hmiss : lookupKey cache0 name = none)
    (hone : groupRemote name = [g]) :
    ((get_snow_group_guid groupRemote cache0 name).remoteCalls = 1
      ∧ (get_snow_group_guid groupRemote cache0 name).result = Except.ok g
      ∧ lookupKey (get_snow_group_guid groupRemote cache0 name).cache name = some g)
    ∧ (∀ c : GroupCache, lookupKey c name = some g →
        (get_snow_group_guid groupRemote c name).remoteCalls = 0
        ∧ (get_snow_group_guid groupRemote c name).result = Except.ok g
        ∧ (get_snow_group_guid groupRemote c name).cache = c)
    ∧ (∀ c : GroupCache, ∀ name2 : Option String, lookupKey c name = some g →
        lookupKey (get_snow_group_guid groupRemote c name2).cache name = some g)
    ∧ (get_snow_group_guid groupRemote
        (clear_group_guid_cache (get_snow_group_guid groupRemote cache0 name).cache)
        name).remoteCalls = 1 := by
  refine ⟨?_, ?_, ?_, ?_⟩
  · unfold get_snow_group_guid
    rw [hmiss, hone]
    exact ⟨rfl, rfl, lookupKey_setKey_self cache0 name g⟩
  · intro c hc
    unfold get_snow_group_guid
    rw [hc]
    exact ⟨rfl, rfl, rfl⟩
  · intro c name2 hc
    simp only [get_snow_group_guid]
    cases h2 : lookupKey c name2 with
    | some g2 => exact hc
    | none =>
        have hne : name ≠ name2 := by
          intro h
          rw [h, h2] at hc
          exact Option.noConfusion hc
        cases hq : groupRemote name2 with
        | nil => exact hc
        | cons a tl =>
            cases tl with
            | nil =>
                simp only [lookupKey_setKey_ne c name2 name a hne]
                exact hc
            | cons b tl2 => exact hc
  · simp only [clear_group_guid_cache, get_snow_group_guid, lookupKey, hone]

/-- C2 witness: a concrete run with an empty cache and a remote that
returns exactly one group. -/
theorem c2_group_guid_cache_behaviour_witness :
    lookupKey ([] : GroupCache) (some "grp") = none
    ∧ (get_snow_group_guid (fun _ => ["G1"]) [] (some "grp")).remoteCalls = 1
    ∧ (get_snow_group_guid (fun _ => ["G1"])
        (get_snow_group_guid (fun _ => ["G1"]) [] (some "grp")).cache
        (some "grp")).remoteCalls = 0 := by
  have h := c2_group_guid_cache_behaviour (fun _ => ["G1"]) [] (some "grp") "G1" rfl rfl
  exact ⟨rfl, h.1.1, (h.2.1 _ h.1.2.2).1⟩

/-- C8: for a group name not in the cache whose remote query returns zero
or more than one match, `get_snow_group_guid` fails with a lookup error
and stores nothing in the cache. -/
theorem c8_group_lookup_failure
    (groupRemote : Option String → List String) (cache : GroupCache)
    (name : Option String)
    (hmiss : lookupKey cache name = none)
    (hlen : (groupRemote name).length ≠ 1) :
    (∃ e, (get_snow_group_guid groupRemote cache name).result = Except.error e)
    ∧ (get_snow_group_guid groupRemote cache name).cache = cache := by
  simp only [get_snow_group_guid, hmiss]
  cases hq : groupRemote name with
  | nil => exact ⟨⟨GroupLookupError.noResults, rfl⟩, rfl⟩
  | cons a tl =>
      cases tl with
      | nil =>
          rw [hq] at hlen
          exact absurd rfl hlen
      | cons b tl2 => exact ⟨⟨GroupLookupError.multipleResults, rfl⟩, rfl⟩

/-- `update_change_order` sends exactly the payload it was given. -/
theorem update_change_order_sentPayload (remote : Payload → RemoteResponse)
    (co : ChangeOrder) (p : Payload) :
    (update_change_order remote co p).sentPayload = p := by
  unfold update_change_order
  cases remote p with
  | httpError t => rfl
  | ok r =>
      obtain ⟨err, s1, s2, s3, s4, s5, s6⟩ := r
      cases err with
      | some e => rfl
      | none => rfl

/-- C3: a successful `update_change_order` overwrites the local record's
`title`, `description`, `assignment_group_guid` and `state` from the
remote response payload, persists the record via `save()`, and returns
the raw remote result. -/
theorem c3_update_success_authoritative
    (remote : Payload → RemoteResponse) (co : ChangeOrder)
    (payload : Payload) (r : SnowResult)
    (hok : remote payload = RemoteResponse.ok r)
    (hnoerr : r.error = none) :
    (update_change_order remote co payload).result = Except.ok r
    ∧ (update_change_order remote co payload).record =
        { co with
          state := r.state
          title := r.short_description
          description := r.description
          assignment_group_guid := r.assignment_group_value }
    ∧ (update_change_order remote co payload).repoOps =
        [RepoOp.saveRecord (update_change_order remote co payload).record] := by
  obtain ⟨err, s1, s2, s3, s4, s5, s6⟩ := r
  have h2 : err = none := hnoerr
  subst h2
  unfold update_change_order
  rw [hok]
  exact ⟨rfl, rfl, rfl⟩

/-- C3 witness: a concrete successful update run. -/
theorem c3_update_success_authoritative_witness :
    (update_change_order (fun _ => RemoteResponse.ok
        ⟨none, "S", "N", "T2", "D2", "AG2", "3"⟩)
      ⟨"id", "n", "t", "d", "a", "1", none⟩ [("state", "3")]).record =
      ⟨"id", "n", "T2", "D2", "AG2", "3", none⟩ :=
  (c3_update_success_authoritative
    (fun _ => RemoteResponse.ok ⟨none, "S", "N", "T2", "D2", "AG2", "3"⟩)
    ⟨"id", "n", "t", "d", "a", "1", none⟩ [("state", "3")]
    ⟨none, "S", "N", "T2", "D2", "AG2", "3"⟩ rfl rfl).2.1

/-- C6: `close_change_order_with_error` always sends
`state = TICKET_STATE_COMPLETE_WITH_ERRORS`, overriding any `state` entry
in the caller's payload, while every other entry of the caller's payload
is sent unchanged. -/
theorem c6_close_with_error_forces_state
    (remote : Payload → RemoteResponse) (now : Nat) (co : ChangeOrder)
    (payload : Payload) :
    lookupKey (close_change_order_with_error remote now co payload).sentPayload
        "state" = some TICKET_STATE_COMPLETE_WITH_ERRORS
    ∧ ∀ k : String, k ≠ "state" →
        lookupKey (close_change_order_with_error remote now co payload).sentPayload k
          = lookupKey payload k := by
  have hs : (close_change_order_with_error remote now co payload).sentPayload
      = setKey payload "state" TICKET_STATE_COMPLETE_WITH_ERRORS := by
    unfold close_change_order_with_error
    exact update_change_order_sentPayload remote _ _
  constructor
  · rw [hs]
    exact lookupKey_setKey_self payload "state" TICKET_STATE_COMPLETE_WITH_ERRORS
  · intro k hk
    rw [hs]
    exact lookupKey_setKey_ne payload "state" k TICKET_STATE_COMPLETE_WITH_ERRORS hk

/-- C6 witness: a concrete run where the caller supplies a conflicting
`state` and a `short_description`. -/
theorem c6_close_with_error_forces_state_witness :
    lookupKey (close_change_order_with_error
        (fun _ => RemoteResponse.httpError "boom") 7
        ⟨"id", "n", "t", "d", "a", "1", none⟩
        [("state", "9"), ("short_description", "T2")]).sentPayload "state"
      = some TICKET_STATE_COMPLETE_WITH_ERRORS
    ∧ lookupKey (close_change_order_with_error
        (fun _ => RemoteResponse.httpError "boom") 7
        ⟨"id", "n", "t", "d", "a", "1", none⟩
        [("state", "9"), ("short_description", "T2")]).sentPayload
        "short_description" = some "T2" := by
  have h := c6_close_with_error_forces_state
    (fun _ => RemoteResponse.httpError "boom") 7
    ⟨"id", "n", "t", "d", "a", "1", none⟩
    [("state", "9"), ("short_description", "T2")]
  refine ⟨h.1, ?_⟩
  rw [h.2 "short_description" (by decide)]
  decide

/-- C9: when the remote update fails during `close_change_order` or
`close_change_order_with_error` — either with an `HTTPError` or a legacy
`error` body — the raised exception leaves the in-memory record with
`closed_time` already stamped to the current time (the mutation is not
rolled back), and no repository write occurs. -/
theorem c9_closed_time_not_rolled_back
    (remA remB remC remD : Payload → RemoteResponse) (now : Nat)
    (co : ChangeOrder) (payload : Payload) (t e : String) (rB rD : SnowResult)
    (hA : ∀ q, remA q = RemoteResponse.httpError t)
    (hB : ∀ q, remB q = RemoteResponse.ok rB) (hBe : rB.error = some e)
    (hC : ∀ q, remC q = RemoteResponse.httpError t)
    (hD : ∀ q, remD q = RemoteResponse.ok rD) (hDe : rD.error = some e) :
    ((close_change_order remA now co).record = { co with closed_time := some now }
      ∧ (∃ ex, (close_change_order remA now co).result = Except.error ex)
      ∧ (close_change_order remA now co).repoOps = [])
    ∧ ((close_change_order remB now co).record = { co with closed_time := some now }
      ∧ (∃ ex, (close_change_order remB now co).result = Except.error ex)
      ∧ (close_change_order remB now co).repoOps = [])
    ∧ ((close_change_order_with_error remC now co payload).record
          = { co with closed_time := some now }
      ∧ (∃ ex, (close_change_order_with_error remC now co payload).result
          = Except.error ex)
      ∧ (close_change_order_with_error remC now co payload).repoOps = [])
    ∧ ((close_change_order_with_error remD now co payload).record
          = { co with closed_time := some now }
      ∧ (∃ ex, (close_change_order_with_error remD now co payload).result
          = Except.error ex)
      ∧ (close_change_order_with_error remD now co payload).repoOps = []) := by
  obtain ⟨errB, b1, b2, b3, b4, b5, b6⟩ := rB
  obtain ⟨errD, d1, d2, d3, d4, d5, d6⟩ := rD
  have hB2 : errB = some e := hBe
  have hD2 : errD = some e := hDe
  subst hB2
  subst hD2
  refine ⟨?_, ?_, ?_, ?_⟩
  · unfold close_change_order update_change_order
    rw [hA]
    exact ⟨rfl, ⟨_, rfl⟩, rfl⟩
  · unfold close_change_order update_change_order
    rw [hB]
    exact ⟨rfl, ⟨_, rfl⟩, rfl⟩
  · unfold close_change_order_with_error update_change_order
    rw [hC]
    exact ⟨rfl, ⟨_, rfl⟩, rfl⟩
  · unfold close_change_order_with_error update_change_order
    rw [hD]
    exact ⟨rfl, ⟨_, rfl⟩, rfl⟩

/-- C9 witness: concrete failing closes — an HTTP failure and a legacy
error body — both leave `closed_time` stamped. -/
theorem c9_closed_time_not_rolled_back_witness :
    (close_change_order (fun _ => RemoteResponse.httpError "down") 7
        ⟨"id", "n", "t", "d", "a", "1", none⟩).record.closed_time = some 7
    ∧ (close_change_order_with_error
        (fun _ => RemoteResponse.ok ⟨some "legacy", "", "", "", "", "", ""⟩) 7
        ⟨"id", "n", "t", "d", "a", "1", none⟩ []).record.closed_time = some 7 := by
  have h := c9_closed_time_not_rolled_back
    (fun _ => RemoteResponse.httpError "down")
    (fun _ => RemoteResponse.ok ⟨some "legacy", "", "", "", "", "", ""⟩)
    (fun _ => RemoteResponse.httpError "down")
    (fun _ => RemoteResponse.ok ⟨some "legacy", "", "", "", "", "", ""⟩)
    7 ⟨"id", "n", "t", "d", "a", "1", none⟩ [] "down" "legacy"
    ⟨some "legacy", "", "", "", "", "", ""⟩
    ⟨some "legacy", "", "", "", "", "", ""⟩
    (fun _ => rfl) (fun _ => rfl) rfl (fun _ => rfl) (fun _ => rfl) rfl
  exact ⟨by rw [h.1.1], by rw [h.2.2.2.1]⟩

/-- C10: passing the empty string as `assignment_group` behaves exactly
like omitting it — Python's `assignment_group or self.snow_assignment_group`
tests falsiness — so the configured default group name is what reaches the
resolver. -/
theorem c10_empty_group_name_falls_back_to_default
    (cfg : Config) (groupRemote : Option String → List String)
    (remote : Payload → RemoteResponse) (cache : GroupCache)
    (title description : String) (payload0 : Option Payload) :
    create_change_order cfg groupRemote remote cache title description
        (some "") payload0
      = create_change_order cfg groupRemote remote cache title description
        none payload0
    ∧ pyOr (some "") cfg.snow_assignment_group = cfg.snow_assignment_group := by
  have h : pyOr (some "") cfg.snow_assignment_group
      = pyOr none cfg.snow_assignment_group := by
    simp [pyOr]
  constructor
  · unfold create_change_order build_create_payload
    rw [h]
  · exact h

theorem lookupKey_titled_short_description (t d : String) (p0 : Option Payload) :
    lookupKey (titled_payload t d p0) "short_description" = some t := by
  unfold titled_payload
  rw [lookupKey_setKey_ne _ "description" "short_description" d (by decide)]
  exact lookupKey_setKey_self _ _ _

theorem lookupKey_titled_description (t d : String) (p0 : Option Payload) :
    lookupKey (titled_payload t d p0) "description" = some d := by
  unfold titled_payload
  exact lookupKey_setKey_self _ _ _

theorem lookupKey_titled_other (t d : String) (p0 : Option Payload) (k : String)
    (h1 : k ≠ "short_description") (h2 : k ≠ "description") :
    lookupKey (titled_payload t d p0) k = lookupKey (p0.getD []) k := by
  unfold titled_payload
  rw [lookupKey_setKey_ne _ _ _ _ h2, lookupKey_setKey_ne _ _ _ _ h1]

theorem lookupKey_base_not_type (cfg : Config) (t d : String)
    (p0 : Option Payload) (k : String) (hk : k ≠ "type") :
    lookupKey (base_create_payload cfg t d p0) k
      = lookupKey (titled_payload t d p0) k := by
  unfold base_create_payload
  split
  · rfl
  · exact lookupKey_setKey_ne _ _ _ _ hk

theorem lookupKey_base_type_absent (cfg : Config) (t d : String)
    (p0 : Option Payload)
    (h : lookupKey (titled_payload t d p0) "type" = none) :
    lookupKey (base_create_payload cfg t d p0) "type"
      = some cfg.snow_default_cr_type := by
  unfold base_create_payload
  rw [h]
  simp only [Option.isSome_none, Bool.false_eq_true, if_false]
  exact lookupKey_setKey_self _ _ _

theorem lookupKey_base_type_present (cfg : Config) (t d : String)
    (p0 : Option Payload)
    (h : (lookupKey (titled_payload t d p0) "type").isSome) :
    lookupKey (base_create_payload cfg t d p0) "type"
      = lookupKey (titled_payload t d p0) "type" := by
  unfold base_create_payload
  rw [if_pos h]

/-- When the payload-building phase of `create_change_order` succeeds, the
payload sent is the base payload, either as-is (when the caller supplied
`assignment_group`) or with the resolved group GUID injected. -/
theorem build_ok_shape (cfg : Config)
    (groupRemote : Option String → List String) (cache : GroupCache)
    (title description : String) (ag : Option String) (p0 : Option Payload)
    (pl : Payload) (c2 : GroupCache) (n : Nat)
    (hb : build_create_payload cfg groupRemote cache title description ag p0
        = (Except.ok pl, c2, n)) :
    ((lookupKey (base_create_payload cfg title description p0)
        "assignment_group").isSome
      ∧ pl = base_create_payload cfg title description p0)
    ∨ (∃ g, (get_snow_group_guid groupRemote cache
          (pyOr ag cfg.snow_assignment_group)).result = Except.ok g
        ∧ pl = setKey (base_create_payload cfg title description p0)
            "assignment_group" g
        ∧ lookupKey (base_create_payload cfg title description p0)
            "assignment_group" = none) := by
  unfold build_create_payload at hb
  by_cases hag : (lookupKey (base_create_payload cfg title description p0)
      "assignment_group").isSome
  · rw [if_pos hag] at hb
    have h1 := congrArg Prod.fst hb
    injection h1 with h1'
    exact Or.inl ⟨hag, h1'.symm⟩
  · rw [if_neg hag] at hb
    have hnone : lookupKey (base_create_payload cfg title description p0)
        "assignment_group" = none := by
      cases h : lookupKey (base_create_payload cfg title description p0)
          "assignment_group" with
      | none => rfl
      | some v => exact absurd (by rw [h]; rfl) hag
    rcases hg : get_snow_group_guid groupRemote cache
        (pyOr ag cfg.snow_assignment_group) with ⟨res, cch, k⟩
    rw [hg] at hb
    cases res with
    | ok g =>
        have h1 := congrArg Prod.fst hb
        injection h1 with h1'
        exact Or.inr ⟨g, rfl, h1'.symm, hnone⟩
    | error e =>
        have h1 := congrArg Prod.fst hb
        exact Except.noConfusion h1

/-- C4: the payload `create_change_order` sends carries the explicit
`title` and `description` parameters under `short_description` and
`description`, overriding any same-named entries the caller put in the
optional payload. -/
theorem c4_explicit_title_description_take_precedence (cfg : Config)
    (groupRemote : Option String → List String) (cache : GroupCache)
    (title description : String) (ag : Option String) (p0 : Option Payload)
    (pl : Payload) (c2 : GroupCache) (n : Nat)
    (hb : build_create_payload cfg groupRemote cache title description ag p0
        = (Except.ok pl, c2, n)) :
    lookupKey pl "short_description" = some title
    ∧ lookupKey pl "description" = some description := by
  have hother : ∀ k : String, k ≠ "assignment_group" →
      lookupKey pl k = lookupKey (base_create_payload cfg title description p0) k := by
    intro k hk
    rcases build_ok_shape cfg groupRemote cache title description ag p0 pl c2 n hb
      with ⟨-, hpl⟩ | ⟨g, -, hpl, -⟩
    · rw [hpl]
    · rw [hpl]
      exact lookupKey_setKey_ne _ _ _ _ hk
  constructor
  · rw [hother "short_description" (by decide),
      lookupKey_base_not_type cfg title description p0 _ (by decide)]
    exact lookupKey_titled_short_description title description p0
  · rw [hother "description" (by decide),
      lookupKey_base_not_type cfg title description p0 _ (by decide)]
    exact lookupKey_titled_description title description p0

/-- C4 witness: a concrete build where the caller's payload tries to
override both keys. -/
theorem c4_explicit_title_description_take_precedence_witness :
    build_create_payload ⟨some "g2", "standard"⟩ (fun _ => ["G9"]) [] "T" "D"
        none (some [("short_description", "EVIL"), ("description", "EVIL2")])
      = (Except.ok [("short_description", "T"), ("description", "D"),
          ("type", "standard"), ("assignment_group", "G9")],
          [(some "g2", "G9")], 1)
    ∧ lookupKey [("short_description", "T"), ("description", "D"),
        ("type", "standard"), ("assignment_group", "G9")] "short_description"
      = some "T"
    ∧ lookupKey [("short_description", "T"), ("description", "D"),
        ("type", "standard"), ("assignment_group", "G9")] "description"
      = some "D" := by
  have h := c4_explicit_title_description_take_precedence
    ⟨some "g2", "standard"⟩ (fun _ => ["G9"]) [] "T" "D" none
    (some [("short_description", "EVIL"), ("description", "EVIL2")])
    [("short_description", "T"), ("description", "D"),
      ("type", "standard"), ("assignment_group", "G9")]
    [(some "g2", "G9")] 1 rfl
  exact ⟨rfl, h.1, h.2⟩

/-- C5: in the payload `create_change_order` sends, a missing `type` entry
is filled with the configured default change type, a missing
`assignment_group` entry is filled with the GUID resolved for the group
name (the explicit argument, falling back to the configured default), and
entries the caller already supplied for these keys are sent as given. -/
theorem c5_type_and_group_defaults (cfg : Config)
    (groupRemote : Option String → List String) (cache : GroupCache)
    (title description : String) (ag : Option String) (p0 : Option Payload)
    (pl : Payload) (c2 : GroupCache) (n : Nat) (g v w : String)
    (hb : build_create_payload cfg groupRemote cache title description ag p0
        = (Except.ok pl, c2, n)) :
    (lookupKey (p0.getD []) "type" = none →
        lookupKey pl "type" = some cfg.snow_default_cr_type)
    ∧ (lookupKey (p0.getD []) "type" = some v →
        lookupKey pl "type" = some v)
    ∧ (lookupKey (p0.getD []) "assignment_group" = none →
        (get_snow_group_guid groupRemote cache
            (pyOr ag cfg.snow_assignment_group)).result = Except.ok g →
        lookupKey pl "assignment_group" = some g)
    ∧ (lookupKey (p0.getD []) "assignment_group" = some w →
        lookupKey pl "assignment_group" = some w) := by
  have htype0 : lookupKey (titled_payload title description p0) "type"
      = lookupKey (p0.getD []) "type" :=
    lookupKey_titled_other title description p0 "type" (by decide) (by decide)
  have hag0 : lookupKey (base_create_payload cfg title description p0)
      "assignment_group" = lookupKey (p0.getD []) "assignment_group" := by
    rw [lookupKey_base_not_type cfg title description p0 _ (by decide)]
    exact lookupKey_titled_other title description p0 "assignment_group"
      (by decide) (by decide)
  have hother : ∀ k : String, k ≠ "assignment_group" →
      lookupKey pl k = lookupKey (base_create_payload cfg title description p0) k := by
    intro k hk
    rcases build_ok_shape cfg groupRemote cache title description ag p0 pl c2 n hb
      with ⟨-, hpl⟩ | ⟨g', -, hpl, -⟩
    · rw [hpl]
    · rw [hpl]
      exact lookupKey_setKey_ne _ _ _ _ hk
  refine ⟨?_, ?_, ?_, ?_⟩
  · intro ht
    rw [hother "type" (by decide)]
    exact lookupKey_base_type_absent cfg title description p0 (by rw [htype0, ht])
  · intro ht
    rw [hother "type" (by decide),
      lookupKey_base_type_present cfg title description p0
        (by rw [htype0, ht]; rfl),
      htype0, ht]
  · intro hag hg
    rcases build_ok_shape cfg groupRemote cache title description ag p0 pl c2 n hb
      with ⟨hsome, -⟩ | ⟨g', hg', hpl, -⟩
    · rw [hag0, hag] at hsome
      exact absurd hsome (by decide)
    · rw [hg] at hg'
      injection hg' with hgg
      rw [hpl, hgg]
      exact lookupKey_setKey_self _ _ _
  · intro hw
    rcases build_ok_shape cfg groupRemote cache title description ag p0 pl c2 n hb
      with ⟨-, hpl⟩ | ⟨g', -, -, hnone⟩
    · rw [hpl, hag0]
      exact hw
    · rw [hag0, hw] at hnone
      exact Option.noConfusion hnone

/-- C5 witness: a concrete build with an empty caller payload: the default
change type and the GUID resolved for the configured default group are
injected. -/
theorem c5_type_and_group_defaults_witness :
    build_create_payload ⟨some "grp", "standard"⟩ (fun _ => ["G1"]) [] "T" "D"
        none none
      = (Except.ok [("short_description", "T"), ("description", "D"),
          ("type", "standard"), ("assignment_group", "G1")],
          [(some "grp", "G1")], 1)
    ∧ lookupKey [("short_description", "T"), ("description", "D"),
        ("type", "standard"), ("assignment_group", "G1")] "type"
      = some "standard"
    ∧ lookupKey [("short_description", "T"), ("description", "D"),
        ("type", "standard"), ("assignment_group", "G1")] "assignment_group"
      = some "G1" := by
  have h := c5_type_and_group_defaults ⟨some "grp", "standard"⟩
    (fun _ => ["G1"]) [] "T" "D" none none
    [("short_description", "T"), ("description", "D"),
      ("type", "standard"), ("assignment_group", "G1")]
    [(some "grp", "G1")] 1 "G1" "x" "y" rfl
  exact ⟨rfl, h.1 rfl, h.2.2.1 rfl rfl⟩

/-- C1: whenever the remote call of `create_change_order` or
`update_change_order` fails — the transport raises `HTTPError`, or the
2xx body carries a legacy `error` field — the operation raises
`ChangeOrderException` whose message includes the remote-supplied text,
no repository write occurs, and (for update) the in-memory record is
untouched. -/
theorem c1_remote_failure_raises_without_write (cfg : Config)
    (groupRemote : Option String → List String) (cache : GroupCache)
    (title description : String) (ag : Option String) (p0 : Option Payload)
    (pl : Payload) (c2 : GroupCache) (n : Nat)
    (remA remB remC remD : Payload → RemoteResponse)
    (co : ChangeOrder) (up : Payload) (t e : String) (rB rD : SnowResult)
    (hb : build_create_payload cfg groupRemote cache title description ag p0
        = (Except.ok pl, c2, n))
    (hA : ∀ q, remA q = RemoteResponse.httpError t)
    (hB : ∀ q, remB q = RemoteResponse.ok rB) (hBe : rB.error = some e)
    (hC : ∀ q, remC q = RemoteResponse.httpError t)
    (hD : ∀ q, remD q = RemoteResponse.ok rD) (hDe : rD.error = some e) :
    ((∃ pre suf, (create_change_order cfg groupRemote remA cache title
          description ag p0).result
        = Except.error (CreateError.changeOrder ⟨pre ++ t ++ suf⟩))
      ∧ (create_change_order cfg groupRemote remA cache title description
          ag p0).repoOps = [])
    ∧ ((∃ pre suf, (create_change_order cfg groupRemote remB cache title
          description ag p0).result
        = Except.error (CreateError.changeOrder ⟨pre ++ e ++ suf⟩))
      ∧ (create_change_order cfg groupRemote remB cache title description
          ag p0).repoOps = [])
    ∧ ((∃ pre suf, (update_change_order remC co up).result
        = Except.error ⟨pre ++ t ++ suf⟩)
      ∧ (update_change_order remC co up).repoOps = []
      ∧ (update_change_order remC co up).record = co)
    ∧ ((∃ pre suf, (update_change_order remD co up).result
        = Except.error ⟨pre ++ e ++ suf⟩)
      ∧ (update_change_order remD co up).repoOps = []
      ∧ (update_change_order remD co up).record = co) := by
  obtain ⟨errB, b1, b2, b3, b4, b5, b6⟩ := rB
  obtain ⟨errD, d1, d2, d3, d4, d5, d6⟩ := rD
  have hB2 : errB = some e := hBe
  have hD2 : errD = some e := hDe
  subst hB2
  subst hD2
  refine ⟨?_, ?_, ?_, ?_⟩
  · rw [create_change_order_eq_send cfg groupRemote remA cache title
      description ag p0 pl c2 n hb]
    unfold send_create
    rw [hA]
    exact ⟨⟨"Could not create change order due to ", ".", rfl⟩, rfl⟩
  · rw [create_change_order_eq_send cfg groupRemote remB cache title
      description ag p0 pl c2 n hb]
    unfold send_create
    rw [hB]
    exact ⟨⟨"Could not create change order due to ", "",
      by rw [String.append_empty]⟩, rfl⟩
  · unfold update_change_order
    rw [hC]
    exact ⟨⟨"Could not update change order due to ", "",
      by rw [String.append_empty]⟩, rfl, rfl⟩
  · unfold update_change_order
    rw [hD]
    exact ⟨⟨"Could not update change order due to ", "",
      by rw [String.append_empty]⟩, rfl, rfl⟩

/-- C1 witness: concrete failing create (HTTP error) and update (legacy
error body) runs. -/
theorem c1_remote_failure_raises_without_write_witness :
    (create_change_order ⟨some "grp", "standard"⟩ (fun _ => ["G1"])
        (fun _ => RemoteResponse.httpError "boom") [] "T" "D" none
        none).repoOps = []
    ∧ (update_change_order
        (fun _ => RemoteResponse.ok ⟨some "legacy", "", "", "", "", "", ""⟩)
        ⟨"id", "n", "t", "d", "a", "1", none⟩ []).record
      = ⟨"id", "n", "t", "d", "a", "1", none⟩ := by
  have h := c1_remote_failure_raises_without_write ⟨some "grp", "standard"⟩
    (fun _ => ["G1"]) [] "T" "D" none none
    [("short_description", "T"), ("description", "D"),
      ("type", "standard"), ("assignment_group", "G1")]
    [(some "grp", "G1")] 1
    (fun _ => RemoteResponse.httpError "boom")
    (fun _ => RemoteResponse.ok ⟨some "legacy", "", "", "", "", "", ""⟩)
    (fun _ => RemoteResponse.httpError "boom")
    (fun _ => RemoteResponse.ok ⟨some "legacy", "", "", "", "", "", ""⟩)
    ⟨"id", "n", "t", "d", "a", "1", none⟩ [] "boom" "legacy"
    ⟨some "legacy", "", "", "", "", "", ""⟩
    ⟨some "legacy", "", "", "", "", "", ""⟩
    rfl (fun _ => rfl) (fun _ => rfl) rfl (fun _ => rfl) (fun _ => rfl) rfl
  exact ⟨h.1.2, h.2.2.2.2.2⟩

/-- C7 counterexample: a successful `close_change_order` whose remote
response substitutes a different state leaves the local record in that
state, not the completed value — the claim that on success the record's
state is the completed value fails. -/
theorem c7_counterexample_state_from_remote :
    (∃ r, (close_change_order
        (fun _ => RemoteResponse.ok ⟨none, "S", "N", "T", "D", "AG", "1"⟩) 7
        ⟨"id", "n", "t", "d", "a", "5", none⟩).result = Except.ok r)
    ∧ (close_change_order
        (fun _ => RemoteResponse.ok ⟨none, "S", "N", "T", "D", "AG", "1"⟩) 7
        ⟨"id", "n", "t", "d", "a", "5", none⟩).record.state
      ≠ TICKET_STATE_COMPLETE := by
  exact ⟨⟨⟨none, "S", "N", "T", "D", "AG", "1"⟩, rfl⟩, by decide⟩

/-- C7 (amended): `close_change_order` stamps `closed_time` to the current
time and sends an update whose payload is exactly
`state = TICKET_STATE_COMPLETE`, independently of the record's prior
state; on success `closed_time` is non-null and the record's state is the
state of the remote response — the completed value whenever the remote
echoes the requested state. -/
theorem c7_close_sends_complete_and_stamps_closed_time
    (remote : Payload → RemoteResponse) (now : Nat) (co : ChangeOrder)
    (r : SnowResult)
    (hok : remote [("state", TICKET_STATE_COMPLETE)] = RemoteResponse.ok r)
    (hnoerr : r.error = none) :
    (∀ rem : Payload → RemoteResponse, ∀ co' : ChangeOrder,
      (close_change_order rem now co').sentPayload
        = [("state", TICKET_STATE_COMPLETE)])
    ∧ (close_change_order remote now co).record.closed_time = some now
    ∧ (close_change_order remote now co).record.state = r.state
    ∧ (r.state = TICKET_STATE_COMPLETE →
        (close_change_order remote now co).record.state
          = TICKET_STATE_COMPLETE) := by
  obtain ⟨err, s1, s2, s3, s4, s5, s6⟩ := r
  have h2 : err = none := hnoerr
  subst h2
  refine ⟨?_, ?_⟩
  · intro rem co'
    unfold close_change_order
    exact update_change_order_sentPayload rem _ _
  · unfold close_change_order update_change_order
    rw [hok]
    exact ⟨rfl, rfl, fun h => h⟩

/-- C7 amended-claim witness: a concrete close where the remote echoes the
requested completed state. -/
theorem c7_close_sends_complete_and_stamps_closed_time_witness :
    (close_change_order (fun _ => RemoteResponse.ok
        ⟨none, "S", "N", "T", "D", "AG", TICKET_STATE_COMPLETE⟩) 7
      ⟨"id", "n", "t", "d", "a", "5", none⟩).record.closed_time = some 7
    ∧ (close_change_order (fun _ => RemoteResponse.ok
        ⟨none, "S", "N", "T", "D", "AG", TICKET_STATE_COMPLETE⟩) 7
      ⟨"id", "n", "t", "d", "a", "5", none⟩).record.state
      = TICKET_STATE_COMPLETE := by
  have h := c7_close_sends_complete_and_stamps_closed_time
    (fun _ => RemoteResponse.ok
      ⟨none, "S", "N", "T", "D", "AG", TICKET_STATE_COMPLETE⟩) 7
    ⟨"id", "n", "t", "d", "a", "5", none⟩
    ⟨none, "S", "N", "T", "D", "AG", TICKET_STATE_COMPLETE⟩ rfl rfl
  exact ⟨h.2.1, h.2.2.2 rfl⟩

/-- C8 witness: a concrete run where the remote query matches no group. -/
theorem c8_group_lookup_failure_witness :
    lookupKey ([] : GroupCache) (some "nogrp") = none
    ∧ ((fun _ => ([] : List String)) (some "nogrp")).length ≠ 1
    ∧ (get_snow_group_guid (fun _ => []) [] (some "nogrp")).cache = [] := by
  have h := c8_group_lookup_failure (fun _ => []) [] (some "nogrp") rfl (by decide)
  exact ⟨rfl, by decide, h.2⟩

end DjangoSnow
